import Mathlib

/-!
# A verification development for the SVRG trainer (`src/svrg.py`)

This file contains a shallow embedding of `SVRGTrainer.train` from
`src/svrg.py` together with theorems about it.

Modelling decisions, in brief:

* A live PyTorch module is modelled as a `ModelState`: its parameter values
  (the `state_dict`) of an abstract type `P`, plus the flattened autograd
  gradient buffers (the `.grad` fields) of an abstract type `G` carrying an
  additive group structure (`zero_grad` writes `0`, `backward` accumulates).
* The external capabilities the trainer calls into (the data loader, the loss
  function, the autograd engine, `torch.optim.SGD`'s parameter update and the
  two `utils` helpers) are fields of an `Env` record.  Loss values are
  idealised as rationals.
* Python's fallible operations are embedded in `Except`: the two average-loss
  divisions raise `ZeroDivisionError` on a zero denominator, and selecting
  from an empty candidate list (`model_state_dicts[-1]` or `random.choice` of
  an empty sequence) raises `IndexError`.
* `random.choice(model_state_dicts)` draws a uniform index below the length of
  the sequence it is given; the random source is modelled as a function
  `randNat : ℕ → ℕ` in the environment whose draw for outer epoch `e` is
  reduced modulo the sequence length.
* Wall-clock timing (`time.time()`, `ex_per_sec`) and `print` calls are pure
  diagnostics that do not enter `metrics` and are omitted.
* The gradient written into the working model by `aux_loss.backward()` is
  `∇L_working − (g_snapshot − mu)`; this is exactly the auxiliary-loss
  gradient identity proved over real parameter vectors in the theorem
  `aux_loss_gradient` below (the engine differentiates
  `model_loss - dot((target_grad - mu).detach(), model_weights)` and the
  dot-product coefficient is a detached constant).
* Ghost data: `train` additionally returns, per outer epoch, an `OuterTrace`
  recording the intermediate values the theorems talk about (the snapshot
  gradient `mu`, parameter values at the reset and selection points, and the
  candidate list).  The traces are pure bookkeeping; they do not influence
  control flow.
-/

namespace SVRG

/-- Failure modes of `SVRGTrainer.train`: Python's `ZeroDivisionError`
(raised by the two average-loss divisions) and `IndexError` (raised when
selecting a next snapshot from an empty candidate list). -/
inductive Err where
  | divisionByZero
  | indexError
  deriving DecidableEq

/-- A live model instance: its parameter values (`state_dict`) together with
its flattened autograd gradient buffer (the `.grad` fields written by
`zero_grad`/`backward` and read by `optimizer.step`). -/
structure ModelState (P G : Type) where
  params : P
  grads : G
  deriving DecidableEq

/-- One dict appended to the `metrics` list: either a warmup record
(lines 51–53) or an inner record (lines 119–122). -/
inductive MetricRecord where
  | warmup (warmupEpoch : ℕ) (trainLoss gradNorm : ℚ)
  | inner (outerEpoch innerEpoch : ℕ) (trainLoss gradNorm : ℚ)
  deriving DecidableEq

/-- The epoch-index shape of a metric record: which kind it is and which
epoch counters it carries. -/
def MetricRecord.tag : MetricRecord → ℕ ⊕ ℕ × ℕ
  | .warmup i _ _ => Sum.inl i
  | .inner e j _ _ => Sum.inr (e, j)

/-- The external capabilities `SVRGTrainer.train` calls into.  `P` is the type
of a model's parameter values, `G` the type of flattened gradient vectors,
`B` the type of one `(data, label)` batch produced by `train_loader`. -/
structure Env (P G B : Type) where
  /-- the finite, restartable batch sequence of `train_loader` -/
  batches : List B
  /-- `len(data)` for a batch -/
  batchSize : B → ℕ
  /-- `len(train_loader.dataset)` -/
  datasetSize : ℕ
  /-- `loss_fn(model(data), label).item()` as a function of the parameters -/
  loss : P → B → ℚ
  /-- the autograd engine: the gradient of the batch loss at the parameters -/
  grad : P → B → G
  /-- `warmup_optimizer.step()`: new parameters from (params, grad buffer) -/
  warmupStep : P → G → P
  /-- `optimizer.step()` of the inner loop -/
  sgdStep : P → G → P
  /-- `utils.calculate_full_gradient` (the `utils` module is external) -/
  fullGrad : P → G
  /-- `utils.calculate_full_gradient_norm` -/
  fullGradNorm : P → ℚ
  /-- the random source behind `random.choice`: an index draw per outer epoch -/
  randNat : ℕ → ℕ

/-- The control-flow-relevant hyperparameters of `SVRGTrainer.train`. -/
structure Config where
  numWarmupEpochs : ℕ
  numOuterEpochs : ℕ
  numInnerEpochs : ℕ
  innerEpochFraction : Option ℚ
  chooseRandomIterate : Bool

variable {P G B : Type}

/-- Python's `x / n` with an integer denominator: raises `ZeroDivisionError`
when `n = 0`. -/
def checkedDiv (x : ℚ) (n : ℕ) : Except Err ℚ :=
  if n = 0 then .error .divisionByZero else .ok (x / n)

/-- Python's `int(n * f)` (line 73) for a natural `n` and an exact rational
fraction `f`: truncation of `n·f` toward zero, computed as the T-division of
`n·f.num` by `f.den` (for `f.den > 0` these agree), then clamped to `ℕ`.
The clamp is harmless: a negative bound and the bound `0` give the same
behaviour in the only place the value is used, the comparison
`batch_num >= inner_batches`. -/
def pyIntMul (n : ℕ) (f : ℚ) : ℕ :=
  (Int.tdiv ((n : ℤ) * f.num) (f.den : ℤ)).toNat

/-- Lines 71–73: `inner_batches`, the per-sub-epoch batch budget. -/
def innerBatchCount (env : Env P G B) (cfg : Config) : ℕ :=
  match cfg.innerEpochFraction with
  | none => env.batches.length
  | some f => pyIntMul env.batches.length f

/-- Lines 38–45: one warmup batch on the target model.  `zero_grad`, forward,
`backward`, `warmup_optimizer.step()`, and accumulation of
`loss.item() * len(data)`. -/
def warmupBatch [AddCommGroup G] (env : Env P G B) (acc : ModelState P G × ℚ) (b : B) :
    ModelState P G × ℚ :=
  let m0 := acc.1
  -- warmup_optimizer.zero_grad()
  let m1 : ModelState P G := { m0 with grads := 0 }
  -- loss = loss_fn(target_model(data), label)
  let l := env.loss m1.params b
  -- loss.backward()
  let m2 : ModelState P G := { m1 with grads := m1.grads + env.grad m1.params b }
  -- warmup_optimizer.step()
  let m3 : ModelState P G := { m2 with params := env.warmupStep m2.params m2.grads }
  (m3, acc.2 + l * (env.batchSize b : ℚ))

/-- Lines 35–55: the warmup loop.  `n` is the number of remaining warmup
epochs and `i` the 1-based index of the first of them; the result is the
trained target model and the warmup metric records in order. -/
def warmupPhase [AddCommGroup G] (env : Env P G B) :
    ℕ → ℕ → ModelState P G → Except Err (ModelState P G × List MetricRecord)
  | 0, _, t => .ok (t, [])
  | n + 1, i, t =>
    let st := env.batches.foldl (warmupBatch env) (t, 0)
    -- avg_warmup_loss = warmup_loss / len(train_loader.dataset)
    match checkedDiv st.2 env.datasetSize with
    | .error e => .error e
    | .ok avg =>
      match warmupPhase env n (i + 1) st.1 with
      | .error e => .error e
      | .ok tr2 =>
        .ok (tr2.1, MetricRecord.warmup i avg (env.fullGradNorm st.1.params) :: tr2.2)

/-- The mutable state threaded through the inner loop: working model, snapshot
model, the per-sub-epoch loss/example accumulators, and `model_state_dicts`
(the candidate parameter states of the whole outer epoch). -/
structure InnerAcc (P G : Type) where
  model : ModelState P G
  target : ModelState P G
  trainLoss : ℚ
  examplesSeen : ℕ
  cands : List P
  deriving DecidableEq

/-- Lines 78–109: one inner-loop batch.  The gradient accumulated into the
working model by `aux_loss.backward()` is `∇L_working − (g_snapshot − mu)`,
by the auxiliary-loss gradient identity (theorem `aux_loss_gradient`):
`aux_loss = model_loss - dot((target_model_grad - mu).detach(), model_weights)`
and the dot-product coefficient is a detached constant. -/
def innerBatch [AddCommGroup G] (env : Env P G B) (mu : G) (s : InnerAcc P G) (b : B) :
    InnerAcc P G :=
  -- optimizer.zero_grad()
  let m1 : ModelState P G := { s.model with grads := 0 }
  -- target_model.zero_grad()
  let t1 : ModelState P G := { s.target with grads := 0 }
  -- target_model_loss.backward()
  let t2 : ModelState P G := { t1 with grads := t1.grads + env.grad t1.params b }
  -- target_model_grad = torch.cat([x.grad.view(-1) ...]).detach()
  let targetModelGrad : G := t2.grads
  -- model_loss = loss_fn(model(data), label)
  let l := env.loss m1.params b
  -- aux_loss.backward()
  let m2 : ModelState P G :=
    { m1 with grads := m1.grads + (env.grad m1.params b - (targetModelGrad - mu)) }
  -- optimizer.step()
  let m3 : ModelState P G := { m2 with params := env.sgdStep m2.params m2.grads }
  { model := m3
    target := t2
    trainLoss := s.trainLoss + l * (env.batchSize b : ℚ)
    examplesSeen := s.examplesSeen + env.batchSize b
    cands := s.cands ++ [m3.params] }

/-- Lines 78–113: `for batch_idx, batch in enumerate(train_loader)` with the
post-processing break `if batch_num >= inner_batches: break`.  `batchIdx` is
the 0-based index of the head of the remaining batch list. -/
def subEpochBatches [AddCommGroup G] (env : Env P G B) (mu : G) (innerBatches : ℕ) :
    List B → ℕ → InnerAcc P G → InnerAcc P G
  | [], _, s => s
  | b :: rest, batchIdx, s =>
    if batchIdx + 1 ≥ innerBatches then innerBatch env mu s b
    else subEpochBatches env mu innerBatches rest (batchIdx + 1) (innerBatch env mu s b)

/-- Lines 75–122: one inner sub-epoch — the batch loop starting from fresh
loss/example accumulators, then `avg_train_loss = train_loss / examples_seen`
and the metric record tagged with (outer epoch, inner epoch). -/
def runSubEpoch [AddCommGroup G] (env : Env P G B) (mu : G) (innerBatches : ℕ)
    (outerEpoch subEpoch : ℕ) (m t : ModelState P G) (cands : List P) :
    Except Err (InnerAcc P G × MetricRecord) :=
  let s1 := subEpochBatches env mu innerBatches env.batches 0
    { model := m, target := t, trainLoss := 0, examplesSeen := 0, cands := cands }
  match checkedDiv s1.trainLoss s1.examplesSeen with
  | .error e => .error e
  | .ok avg =>
    .ok (s1, MetricRecord.inner outerEpoch subEpoch avg (env.fullGradNorm s1.model.params))

/-- Line 74: `for sub_epoch in range(1, num_inner_epochs + 1)`.  `n` is the
number of remaining sub-epochs and `j` the 1-based index of the first;
`model_state_dicts` (`cands`) persists across sub-epochs. -/
def runSubEpochs [AddCommGroup G] (env : Env P G B) (mu : G) (innerBatches : ℕ)
    (outerEpoch : ℕ) :
    ℕ → ℕ → ModelState P G → ModelState P G → List P →
    Except Err (ModelState P G × ModelState P G × List P × List MetricRecord)
  | 0, _, m, t, cands => .ok (m, t, cands, [])
  | n + 1, j, m, t, cands =>
    match runSubEpoch env mu innerBatches outerEpoch j m t cands with
    | .error e => .error e
    | .ok (s1, r1) =>
      match runSubEpochs env mu innerBatches outerEpoch n (j + 1) s1.model s1.target s1.cands with
      | .error e => .error e
      | .ok (m2, t2, cands2, rs) => .ok (m2, t2, cands2, r1 :: rs)

/-- Lines 127–130: `SelectNextSnapshot`.  `random.choice` on a non-empty
sequence returns the element at a uniformly drawn index below its length; on
an empty sequence both branches raise `IndexError`. -/
def selectNextSnapshot (env : Env P G B) (cfg : Config) (epoch : ℕ) (cands : List P) :
    Except Err P :=
  match cands with
  | [] => .error .indexError
  | c :: rest =>
    if cfg.chooseRandomIterate then
      .ok ((c :: rest).get ⟨env.randNat epoch % (c :: rest).length,
        Nat.mod_lt _ (Nat.succ_pos rest.length)⟩)
    else
      .ok ((c :: rest).getLast (List.cons_ne_nil c rest))

/-- Ghost record of the observable intermediate values of one outer epoch. -/
structure OuterTrace (P G : Type) where
  /-- the 1-based outer epoch index -/
  epoch : ℕ
  /-- the snapshot gradient computed at lines 59–64 -/
  mu : G
  /-- the target model's parameter values when `mu` is computed -/
  targetParamsStart : P
  /-- the working model's parameter values right after line 67 -/
  workingAfterReset : P
  /-- `model_state_dicts` at the end of the inner loop -/
  candidates : List P
  /-- the target model's parameter values right before line 127 -/
  targetParamsEnd : P
  /-- `new_target_state_dict` -/
  chosen : P
  deriving DecidableEq

/-- Lines 57–131: one outer epoch — snapshot gradient, working-model reset,
the inner loop, and next-snapshot selection. -/
def runOuterEpoch [AddCommGroup G] (env : Env P G B) (cfg : Config) (epoch : ℕ)
    (model target : ModelState P G) :
    Except Err (ModelState P G × ModelState P G × OuterTrace P G × List MetricRecord) :=
  -- mu = utils.calculate_full_gradient(target_model, ...)
  let mu := env.fullGrad target.params
  -- model.load_state_dict(copy.deepcopy(target_model.state_dict()))
  let model1 : ModelState P G := { model with params := target.params }
  match runSubEpochs env mu (innerBatchCount env cfg) epoch
      cfg.numInnerEpochs 1 model1 target [] with
  | .error e => .error e
  | .ok (m2, t2, cands, recs) =>
    match selectNextSnapshot env cfg epoch cands with
    | .error e => .error e
    | .ok chosen =>
      -- target_model.load_state_dict(new_target_state_dict)
      .ok (m2, { t2 with params := chosen },
        { epoch := epoch, mu := mu, targetParamsStart := target.params,
          workingAfterReset := model1.params, candidates := cands,
          targetParamsEnd := t2.params, chosen := chosen }, recs)

/-- Line 57: `for epoch in range(1, num_outer_epochs + 1)`.  `n` is the number
of remaining outer epochs and `e` the 1-based index of the first. -/
def runOuterEpochs [AddCommGroup G] (env : Env P G B) (cfg : Config) :
    ℕ → ℕ → ModelState P G → ModelState P G →
    Except Err (ModelState P G × ModelState P G × List (OuterTrace P G) × List MetricRecord)
  | 0, _, m, t => .ok (m, t, [], [])
  | n + 1, e, m, t =>
    match runOuterEpoch env cfg e m t with
    | .error err => .error err
    | .ok (m1, t1, tr, recs) =>
      match runOuterEpochs env cfg n (e + 1) m1 t1 with
      | .error err => .error err
      | .ok (m2, t2, trs, recs2) => .ok (m2, t2, tr :: trs, recs ++ recs2)

/-- The value of a completed run: the `metrics` list returned at line 132, the
final working and target models, and the ghost per-outer-epoch traces. -/
structure TrainResult (P G : Type) where
  metrics : List MetricRecord
  outerTraces : List (OuterTrace P G)
  model : ModelState P G
  targetModel : ModelState P G
  deriving DecidableEq

/-- `SVRGTrainer.train` (lines 24–132): the warmup phase on the target model
followed by the outer loop.  `model0` and `target0` are the two freshly
created models of lines 28–29. -/
def train [AddCommGroup G] (env : Env P G B) (cfg : Config)
    (model0 target0 : ModelState P G) : Except Err (TrainResult P G) :=
  match warmupPhase env cfg.numWarmupEpochs 1 target0 with
  | .error e => .error e
  | .ok (t1, wrecs) =>
    match runOuterEpochs env cfg cfg.numOuterEpochs 1 model0 t1 with
    | .error e => .error e
    | .ok (m2, t2, trs, irecs) =>
      .ok { metrics := wrecs ++ irecs, outerTraces := trs, model := m2, targetModel := t2 }

/-- Extract the payload of a successful run (total, with an explicit default;
used only to name concrete run results in closed statements). -/
def getOk {α : Type} (d : α) : Except Err α → α
  | .ok a => a
  | .error _ => d

/-- Modelled from the spec: `utils.calculate_full_gradient` is imported by
`svrg.py` but the `utils` module is not part of the source snapshot.
Spec §4.1: iterate the full dataset in batches, accumulate a running sum of
(per-batch gradient × batch size) and a running total example count, then
divide each accumulated gradient by the total example count. -/
def calculate_full_gradient {B G : Type} [AddCommGroup G] [Module ℚ G]
    (grad : B → G) (batchSize : B → ℕ) (batches : List B) : G :=
  let totalExamples : ℕ := (batches.map batchSize).sum
  ((totalExamples : ℚ))⁻¹ • (batches.map (fun b => (batchSize b : ℚ) • grad b)).sum

/-- The gradient-engine contract for a mean-reduction loss (the default of
`nn.CrossEntropyLoss`): the gradient of a batch is the average of the
per-example gradients of that batch. -/
def meanBatchGrad {Ex G : Type} [AddCommGroup G] [Module ℚ G]
    (exGrad : Ex → G) (b : List Ex) : G :=
  ((b.length : ℚ))⁻¹ • (b.map exGrad).sum

/-- The number of batches one inner sub-epoch actually processes: `min` of the
batch count and the budget `inner_batches` clamped below by `1` (the break at
line 112 runs only after a batch has been processed); on an empty batch
sequence the `min` is `0`. -/
def subEpochLen (env : Env P G B) (ib : ℕ) : ℕ :=
  min env.batches.length (max 1 ib)

/-- Line 90–91: `model_weights`, the flattened concatenation of the working
model's parameters, paired with line 97–99's `torch.dot`: the dot product of
two flattened real vectors. -/
noncomputable def dotP {n : ℕ} (c w : EuclideanSpace ℝ (Fin n)) : ℝ := ∑ i, c i * w i

/-- Lines 97–99: the auxiliary loss
`aux_loss = model_loss - torch.dot((target_model_grad - mu).detach(), model_weights)`
as a function of the working parameter vector `θ`.  `L` is the batch loss as a
function of the parameters and `c` the detached constant coefficient
`target_model_grad - mu`; no gradient flows through `c`. -/
noncomputable def auxLoss {n : ℕ} (L : EuclideanSpace ℝ (Fin n) → ℝ)
    (c θ : EuclideanSpace ℝ (Fin n)) : ℝ :=
  L θ - dotP c θ

/-! Concrete instantiations used by the closed statements below: a two-batch
loader of one example each over rational scalar parameters and gradients. -/

/-- Default payload for naming the result of a concrete successful run. -/
def defaultResultQ : TrainResult ℚ ℚ :=
  { metrics := [], outerTraces := [], model := ⟨0, 0⟩, targetModel := ⟨0, 0⟩ }

/-- A concrete environment: two singleton batches, scalar parameters. -/
def envW : Env ℚ ℚ Unit :=
  { batches := [(), ()]
    batchSize := fun _ => 1
    datasetSize := 2
    loss := fun p _ => p
    grad := fun _ _ => 1
    warmupStep := fun p g => p - g
    sgdStep := fun p g => p - g
    fullGrad := fun _ => 1
    fullGradNorm := fun _ => 0
    randNat := fun e => e }

/-- `envW` with an empty dataset and a loader yielding no batches. -/
def envNoBatch : Env ℚ ℚ Unit :=
  { envW with batches := [], datasetSize := 0 }

/-- `envW` with `len(train_loader.dataset) = 0`. -/
def envDS0 : Env ℚ ℚ Unit :=
  { envW with datasetSize := 0 }

/-- A fresh scalar model state. -/
def m0W : ModelState ℚ ℚ := ⟨0, 0⟩

/-- Config with `inner_epoch_fraction = 2/5` over two batches, so that
`int(len(train_loader) * inner_epoch_fraction) = 0`. -/
def cfgFrac : Config :=
  { numWarmupEpochs := 0, numOuterEpochs := 1, numInnerEpochs := 1,
    innerEpochFraction := some (Rat.mk' 2 5), chooseRandomIterate := false }

/-- Like `cfgFrac` but with two inner sub-epochs. -/
def cfgFrac2 : Config :=
  { numWarmupEpochs := 0, numOuterEpochs := 1, numInnerEpochs := 2,
    innerEpochFraction := some (Rat.mk' 2 5), chooseRandomIterate := false }

/-- A small full run with random-iterate selection. -/
def cfgRand : Config :=
  { numWarmupEpochs := 1, numOuterEpochs := 2, numInnerEpochs := 2,
    innerEpochFraction := none, chooseRandomIterate := true }

/-- A small full run with last-iterate selection. -/
def cfgDet : Config :=
  { numWarmupEpochs := 1, numOuterEpochs := 2, numInnerEpochs := 2,
    innerEpochFraction := none, chooseRandomIterate := false }

/-- One outer epoch with zero inner sub-epochs. -/
def cfgI0 : Config :=
  { numWarmupEpochs := 0, numOuterEpochs := 1, numInnerEpochs := 0,
    innerEpochFraction := none, chooseRandomIterate := false }

/-- One outer epoch with one inner sub-epoch, no warmup. -/
def cfgO1 : Config :=
  { numWarmupEpochs := 0, numOuterEpochs := 1, numInnerEpochs := 1,
    innerEpochFraction := none, chooseRandomIterate := false }

/-- Warmup only. -/
def cfgWarm : Config :=
  { numWarmupEpochs := 1, numOuterEpochs := 0, numInnerEpochs := 0,
    innerEpochFraction := none, chooseRandomIterate := false }

/-- A concrete inner-loop state with empty `model_state_dicts`. -/
def sW : InnerAcc ℚ ℚ :=
  { model := m0W, target := m0W, trainLoss := 0, examplesSeen := 0, cands := [] }

/-! ## Structural lemmas about the inner loop -/

theorem innerBatch_target_params [AddCommGroup G] (env : Env P G B) (mu : G)
    (s : InnerAcc P G) (b : B) : (innerBatch env mu s b).target.params = s.target.params := by
  simp [innerBatch]

theorem innerBatch_cands [AddCommGroup G] (env : Env P G B) (mu : G)
    (s : InnerAcc P G) (b : B) :
    (innerBatch env mu s b).cands.length = s.cands.length + 1 := by
  simp [innerBatch]

theorem subEpochBatches_target_params [AddCommGroup G] (env : Env P G B) (mu : G)
    (ib : ℕ) :
    ∀ (bs : List B) (k : ℕ) (s : InnerAcc P G),
      (subEpochBatches env mu ib bs k s).target.params = s.target.params := by
  intro bs
  induction bs with
  | nil => intro k s; simp [subEpochBatches]
  | cons b rest ih =>
    intro k s
    rw [subEpochBatches]
    by_cases hk : k + 1 ≥ ib
    · rw [if_pos hk]
      exact innerBatch_target_params env mu s b
    · rw [if_neg hk, ih]
      exact innerBatch_target_params env mu s b

theorem subEpochBatches_cands_length [AddCommGroup G] (env : Env P G B) (mu : G)
    (ib : ℕ) :
    ∀ (bs : List B) (k : ℕ) (s : InnerAcc P G),
      (subEpochBatches env mu ib bs k s).cands.length
        = s.cands.length + min bs.length (max 1 (ib - k)) := by
  intro bs
  induction bs with
  | nil => intro k s; simp [subEpochBatches]
  | cons b rest ih =>
    intro k s
    rw [subEpochBatches]
    by_cases hk : k + 1 ≥ ib
    · rw [if_pos hk, innerBatch_cands]
      simp only [List.length_cons]
      omega
    · rw [if_neg hk, ih, innerBatch_cands]
      simp only [List.length_cons]
      omega

theorem selectNextSnapshot_ok (env : Env P G B) (cfg : Config) (epoch : ℕ)
    (cands : List P) (c : P) (h : selectNextSnapshot env cfg epoch cands = .ok c) :
    cands ≠ [] ∧
    (cfg.chooseRandomIterate = false → cands.getLast? = some c) ∧
    (cfg.chooseRandomIterate = true →
      cands[env.randNat epoch % cands.length]? = some c) := by
  match cands with
  | [] => exact absurd h (by simp [selectNextSnapshot])
  | a :: rest =>
    refine ⟨List.cons_ne_nil a rest, ?_, ?_⟩
    · intro hcr
      rw [selectNextSnapshot, hcr] at h
      simp only [Bool.false_eq_true, if_false, Except.ok.injEq] at h
      rw [List.getLast?_eq_getLast _ (List.cons_ne_nil a rest), h]
    · intro hcr
      rw [selectNextSnapshot, hcr] at h
      simp only [if_true, Except.ok.injEq] at h
      have hlt : env.randNat epoch % (a :: rest).length < (a :: rest).length :=
        Nat.mod_lt _ (by simp)
      rw [List.getElem?_eq_getElem hlt, ← h]
      simp [List.get_eq_getElem]

theorem runSubEpoch_ok [AddCommGroup G] (env : Env P G B) (mu : G) (ib e j : ℕ)
    (m t : ModelState P G) (cands : List P) (s1 : InnerAcc P G) (r1 : MetricRecord)
    (h : runSubEpoch env mu ib e j m t cands = .ok (s1, r1)) :
    s1.target.params = t.params ∧
    s1.cands.length = cands.length + subEpochLen env ib ∧
    r1.tag = Sum.inr (e, j) := by
  simp only [runSubEpoch] at h
  split at h
  · exact absurd h (by simp)
  · rw [Except.ok.injEq, Prod.mk.injEq] at h
    obtain ⟨hs, hr⟩ := h
    subst hs
    subst hr
    refine ⟨subEpochBatches_target_params env mu ib env.batches 0 _, ?_, rfl⟩
    rw [subEpochBatches_cands_length env mu ib env.batches 0]
    simp [subEpochLen]

theorem runSubEpochs_ok [AddCommGroup G] (env : Env P G B) (mu : G) (ib e : ℕ) :
    ∀ (n j : ℕ) (m t : ModelState P G) (cands : List P)
      (m2 t2 : ModelState P G) (cands2 : List P) (rs : List MetricRecord),
      runSubEpochs env mu ib e n j m t cands = .ok (m2, t2, cands2, rs) →
      t2.params = t.params ∧
      cands2.length = cands.length + n * subEpochLen env ib ∧
      rs.map MetricRecord.tag = (List.range' j n).map (fun k => Sum.inr (e, k)) := by
  intro n
  induction n with
  | zero =>
    intro j m t cands m2 t2 cands2 rs h
    simp only [runSubEpochs, Except.ok.injEq, Prod.mk.injEq] at h
    obtain ⟨hm, ht, hc, hr⟩ := h
    subst hm; subst ht; subst hc; subst hr
    simp [List.range']
  | succ n ih =>
    intro j m t cands m2 t2 cands2 rs h
    rw [runSubEpochs] at h
    split at h
    · exact absurd h (by simp)
    · rename_i s1 r1 heq1
      split at h
      · exact absurd h (by simp)
      · rename_i m2x t2x cands2x rsx heq2
        rw [Except.ok.injEq, Prod.mk.injEq, Prod.mk.injEq, Prod.mk.injEq] at h
        obtain ⟨hm, ht, hc, hr⟩ := h
        subst hm; subst ht; subst hc; subst hr
        obtain ⟨ha1, ha2, ha3⟩ := runSubEpoch_ok env mu ib e j m t cands s1 r1 heq1
        obtain ⟨hb1, hb2, hb3⟩ := ih (j + 1) s1.model s1.target s1.cands m2x t2x cands2x rsx heq2
        refine ⟨hb1.trans ha1, ?_, ?_⟩
        · rw [hb2, ha2]; ring
        · rw [List.map_cons, hb3, ha3, List.range'_succ, List.map_cons]

theorem warmupPhase_ok_tags [AddCommGroup G] (env : Env P G B) :
    ∀ (n i : ℕ) (t t2 : ModelState P G) (recs : List MetricRecord),
      warmupPhase env n i t = .ok (t2, recs) →
      recs.map MetricRecord.tag = (List.range' i n).map Sum.inl := by
  intro n
  induction n with
  | zero =>
    intro i t t2 recs h
    simp only [warmupPhase, Except.ok.injEq, Prod.mk.injEq] at h
    obtain ⟨ht, hr⟩ := h
    subst hr
    simp [List.range']
  | succ n ih =>
    intro i t t2 recs h
    rw [warmupPhase] at h
    split at h
    · exact absurd h (by simp)
    · rename_i avg heq1
      split at h
      · exact absurd h (by simp)
      · rename_i tr2 heq2
        rw [Except.ok.injEq, Prod.mk.injEq] at h
        obtain ⟨ht, hr⟩ := h
        subst hr
        rw [List.map_cons, ih (i + 1) _ tr2.1 tr2.2 (by rw [heq2]), List.range'_succ,
          List.map_cons]
        rfl

theorem warmupPhase_err_of_empty_dataset [AddCommGroup G] (env : Env P G B)
    (h0 : env.datasetSize = 0) (n i : ℕ) (t : ModelState P G) (hn : 1 ≤ n) :
    warmupPhase env n i t = .error .divisionByZero := by
  match n with
  | 0 => exact absurd hn (by omega)
  | n + 1 =>
    rw [warmupPhase]
    simp [checkedDiv, h0]

theorem warmupPhase_ok_of_pos [AddCommGroup G] (env : Env P G B)
    (h0 : env.datasetSize ≠ 0) :
    ∀ (n i : ℕ) (t : ModelState P G), ∃ out, warmupPhase env n i t = .ok out := by
  intro n
  induction n with
  | zero => intro i t; exact ⟨(t, []), rfl⟩
  | succ n ih =>
    intro i t
    obtain ⟨out, hout⟩ := ih (i + 1) (env.batches.foldl (warmupBatch env) (t, 0)).1
    rw [warmupPhase]
    simp only [checkedDiv, h0, if_false, hout]
    exact ⟨_, rfl⟩

theorem runOuterEpoch_ok [AddCommGroup G] (env : Env P G B) (cfg : Config) (epoch : ℕ)
    (model target m1 t1 : ModelState P G) (tr : OuterTrace P G) (recs : List MetricRecord)
    (h : runOuterEpoch env cfg epoch model target = .ok (m1, t1, tr, recs)) :
    tr.epoch = epoch ∧
    tr.mu = env.fullGrad target.params ∧
    tr.targetParamsStart = target.params ∧
    tr.workingAfterReset = target.params ∧
    tr.targetParamsEnd = target.params ∧
    tr.candidates.length = cfg.numInnerEpochs * subEpochLen env (innerBatchCount env cfg) ∧
    t1.params = tr.chosen ∧
    (cfg.chooseRandomIterate = false → tr.candidates.getLast? = some tr.chosen) ∧
    (cfg.chooseRandomIterate = true →
      tr.candidates[env.randNat epoch % tr.candidates.length]? = some tr.chosen) ∧
    recs.map MetricRecord.tag
      = (List.range' 1 cfg.numInnerEpochs).map (fun j => Sum.inr (epoch, j)) := by
  simp only [runOuterEpoch] at h
  split at h
  · exact absurd h (by simp)
  · rename_i m2 t2 cands recs2 heq1
    split at h
    · exact absurd h (by simp)
    · rename_i chosen heq2
      rw [Except.ok.injEq, Prod.mk.injEq, Prod.mk.injEq, Prod.mk.injEq] at h
      obtain ⟨hm, ht, htr, hr⟩ := h
      subst hm; subst ht; subst htr; subst hr
      obtain ⟨ha1, ha2, ha3⟩ :=
        runSubEpochs_ok env (env.fullGrad target.params) (innerBatchCount env cfg) epoch
          cfg.numInnerEpochs 1 { model with params := target.params } target [] m2 t2 cands
          recs2 heq1
      obtain ⟨hb1, hb2, hb3⟩ := selectNextSnapshot_ok env cfg epoch cands chosen heq2
      exact ⟨rfl, rfl, rfl, rfl, ha1, by simpa using ha2, rfl, hb2, hb3, ha3⟩

theorem runOuterEpochs_traces [AddCommGroup G] (env : Env P G B) (cfg : Config)
    (Φ : OuterTrace P G → Prop)
    (hΦ : ∀ (epoch : ℕ) (model target m1 t1 : ModelState P G) (tr : OuterTrace P G)
      (recs : List MetricRecord),
      runOuterEpoch env cfg epoch model target = .ok (m1, t1, tr, recs) → Φ tr) :
    ∀ (n e : ℕ) (m t m2 t2 : ModelState P G) (trs : List (OuterTrace P G))
      (recs : List MetricRecord),
      runOuterEpochs env cfg n e m t = .ok (m2, t2, trs, recs) →
      ∀ tr ∈ trs, Φ tr := by
  intro n
  induction n with
  | zero =>
    intro e m t m2 t2 trs recs h
    simp only [runOuterEpochs, Except.ok.injEq, Prod.mk.injEq] at h
    obtain ⟨-, -, hc, -⟩ := h
    subst hc
    intro tr htr
    exact absurd htr (by simp)
  | succ n ih =>
    intro e m t m2 t2 trs recs h
    rw [runOuterEpochs] at h
    split at h
    · exact absurd h (by simp)
    · rename_i m1 t1 tr1 recs1 heq1
      split at h
      · exact absurd h (by simp)
      · rename_i m2x t2x trsx recsx heq2
        rw [Except.ok.injEq, Prod.mk.injEq, Prod.mk.injEq, Prod.mk.injEq] at h
        obtain ⟨hm, ht, hc, hr⟩ := h
        subst hm; subst ht; subst hc; subst hr
        intro tr htr
        rcases List.mem_cons.mp htr with hcase | hcase
        · subst hcase
          exact hΦ e m t m1 t1 tr recs1 heq1
        · exact ih (e + 1) m1 t1 m2x t2x trsx recsx heq2 tr hcase

theorem runOuterEpochs_tags [AddCommGroup G] (env : Env P G B) (cfg : Config) :
    ∀ (n e : ℕ) (m t m2 t2 : ModelState P G) (trs : List (OuterTrace P G))
      (recs : List MetricRecord),
      runOuterEpochs env cfg n e m t = .ok (m2, t2, trs, recs) →
      recs.map MetricRecord.tag
        = (List.range' e n).flatMap
            (fun ep => (List.range' 1 cfg.numInnerEpochs).map (fun j => Sum.inr (ep, j))) := by
  intro n
  induction n with
  | zero =>
    intro e m t m2 t2 trs recs h
    simp only [runOuterEpochs, Except.ok.injEq, Prod.mk.injEq] at h
    obtain ⟨-, -, -, hr⟩ := h
    subst hr
    simp [List.range']
  | succ n ih =>
    intro e m t m2 t2 trs recs h
    rw [runOuterEpochs] at h
    split at h
    · exact absurd h (by simp)
    · rename_i m1 t1 tr1 recs1 heq1
      split at h
      · exact absurd h (by simp)
      · rename_i m2x t2x trsx recsx heq2
        rw [Except.ok.injEq, Prod.mk.injEq, Prod.mk.injEq, Prod.mk.injEq] at h
        obtain ⟨hm, ht, hc, hr⟩ := h
        subst hm; subst ht; subst hc; subst hr
        rw [List.map_append, ih (e + 1) m1 t1 m2x t2x trsx recsx heq2,
          (runOuterEpoch_ok env cfg e m t m1 t1 tr1 recs1 heq1).2.2.2.2.2.2.2.2.2,
          List.range'_succ, List.flatMap_cons]

theorem runOuterEpochs_chain [AddCommGroup G] (env : Env P G B) (cfg : Config) :
    ∀ (n e : ℕ) (m t m2 t2 : ModelState P G) (trs : List (OuterTrace P G))
      (recs : List MetricRecord),
      runOuterEpochs env cfg n e m t = .ok (m2, t2, trs, recs) →
      (trs = [] → t2 = t) ∧
      (∀ hd, trs.head? = some hd → hd.targetParamsStart = t.params) ∧
      (∀ lt, trs.getLast? = some lt → t2.params = lt.chosen) ∧
      List.Chain' (fun a b => b.targetParamsStart = a.chosen) trs := by
  intro n
  induction n with
  | zero =>
    intro e m t m2 t2 trs recs h
    simp only [runOuterEpochs, Except.ok.injEq, Prod.mk.injEq] at h
    obtain ⟨-, ht, hc, -⟩ := h
    subst hc
    exact ⟨fun _ => ht.symm, by simp, by simp, List.chain'_nil⟩
  | succ n ih =>
    intro e m t m2 t2 trs recs h
    rw [runOuterEpochs] at h
    split at h
    · exact absurd h (by simp)
    · rename_i m1 t1 tr1 recs1 heq1
      split at h
      · exact absurd h (by simp)
      · rename_i m2x t2x trsx recsx heq2
        rw [Except.ok.injEq, Prod.mk.injEq, Prod.mk.injEq, Prod.mk.injEq] at h
        obtain ⟨hm, ht, hc, hr⟩ := h
        subst hm; subst ht; subst hc; subst hr
        obtain ⟨he1, he2, he3, he4, he5, he6, he7, he8, he9, he10⟩ :=
          runOuterEpoch_ok env cfg e m t m1 t1 tr1 recs1 heq1
        obtain ⟨hi1, hi2, hi3, hi4⟩ := ih (e + 1) m1 t1 m2x t2x trsx recsx heq2
        refine ⟨fun hcon => absurd hcon (by simp), ?_, ?_, ?_⟩
        · intro hd hhd
          rw [List.head?_cons, Option.some.injEq] at hhd
          subst hhd
          exact he3
        · intro lt hlt
          match trsx, hlt with
          | [], hlt =>
            rw [List.getLast?_singleton, Option.some.injEq] at hlt
            subst hlt
            rw [hi1 rfl]
            exact he7
          | b :: l, hlt =>
            rw [List.getLast?_cons_cons] at hlt
            exact hi3 lt hlt
        · rw [List.chain'_cons']
          refine ⟨?_, hi4⟩
          intro y hy
          rw [hi2 y hy, he7]

theorem train_ok_inv [AddCommGroup G] (env : Env P G B) (cfg : Config)
    (m0 t0 : ModelState P G) (r : TrainResult P G) (h : train env cfg m0 t0 = .ok r) :
    ∃ (t1 : ModelState P G) (wrecs : List MetricRecord) (m2 t2 : ModelState P G)
      (irecs : List MetricRecord),
      warmupPhase env cfg.numWarmupEpochs 1 t0 = .ok (t1, wrecs) ∧
      runOuterEpochs env cfg cfg.numOuterEpochs 1 m0 t1 = .ok (m2, t2, r.outerTraces, irecs) ∧
      r.metrics = wrecs ++ irecs ∧ r.model = m2 ∧ r.targetModel = t2 := by
  rw [train] at h
  split at h
  · exact absurd h (by simp)
  · rename_i t1 wrecs heq1
    split at h
    · exact absurd h (by simp)
    · rename_i m2 t2 trs irecs heq2
      rw [Except.ok.injEq] at h
      subst h
      exact ⟨t1, wrecs, m2, t2, irecs, heq1, heq2, rfl, rfl, rfl⟩

theorem runOuterEpoch_err_of_no_inner [AddCommGroup G] (env : Env P G B) (cfg : Config)
    (e : ℕ) (m t : ModelState P G) (hI : cfg.numInnerEpochs = 0) :
    runOuterEpoch env cfg e m t = .error .indexError := by
  simp [runOuterEpoch, hI, runSubEpochs, selectNextSnapshot]

theorem runOuterEpoch_err_of_no_batches [AddCommGroup G] (env : Env P G B) (cfg : Config)
    (e : ℕ) (m t : ModelState P G) (hb : env.batches = []) (hI : 1 ≤ cfg.numInnerEpochs) :
    runOuterEpoch env cfg e m t = .error .divisionByZero := by
  obtain ⟨k, hk⟩ : ∃ k, cfg.numInnerEpochs = k + 1 := ⟨cfg.numInnerEpochs - 1, by omega⟩
  simp [runOuterEpoch, hk, runSubEpochs, runSubEpoch, hb, subEpochBatches, checkedDiv]

/-! ## The claims -/

open RealInnerProductSpace InnerProductSpace

theorem dotP_eq_inner {n : ℕ} (c w : EuclideanSpace ℝ (Fin n)) : dotP c w = ⟪c, w⟫ := by
  simp [dotP, PiLp.inner_apply, RCLike.inner_apply, starRingEnd_apply, star_trivial]

theorem hasGradientAt_dotP {n : ℕ} (c θ : EuclideanSpace ℝ (Fin n)) :
    HasGradientAt (fun w => dotP c w) c θ := by
  rw [hasGradientAt_iff_hasFDerivAt]
  have h1 : (fun w : EuclideanSpace ℝ (Fin n) => dotP c w) = fun w => (toDual ℝ _ c) w := by
    funext w
    rw [dotP_eq_inner, toDual_apply]
  rw [h1]
  exact (toDual ℝ (EuclideanSpace ℝ (Fin n)) c).hasFDerivAt

/-- Claim C1: the auxiliary loss of lines 97–99,
`aux_loss = model_loss - dot((g_snapshot - mu).detach(), model_weights)`,
has, at any point where the batch loss is differentiable, the gradient
`∇L_working − (g_snapshot − mu)` with respect to the working parameter
vector: the detached coefficient contributes only its linear interaction
with the parameters. -/
theorem aux_loss_gradient {n : ℕ} (L : EuclideanSpace ℝ (Fin n) → ℝ)
    (gsnap mu θ : EuclideanSpace ℝ (Fin n)) (hL : DifferentiableAt ℝ L θ) :
    gradient (auxLoss L (gsnap - mu)) θ = gradient L θ - (gsnap - mu) := by
  set c := gsnap - mu with hc
  have hfL : HasFDerivAt L (toDual ℝ _ (gradient L θ)) θ :=
    hasGradientAt_iff_hasFDerivAt.mp hL.hasGradientAt
  have hfd : HasFDerivAt (fun w => dotP c w) (toDual ℝ _ c) θ :=
    hasGradientAt_iff_hasFDerivAt.mp (hasGradientAt_dotP c θ)
  have hsub := hfL.sub hfd
  have hmap : toDual ℝ (EuclideanSpace ℝ (Fin n)) (gradient L θ) - toDual ℝ _ c
      = toDual ℝ _ (gradient L θ - c) := (map_sub _ _ _).symm
  rw [hmap] at hsub
  have hg : HasGradientAt (auxLoss L c) (gradient L θ - c) θ :=
    hasGradientAt_iff_hasFDerivAt.mpr hsub
  exact hg.gradient

/-- Witness for C1 at a concrete differentiable loss and concrete vectors. -/
theorem aux_loss_gradient_witness :
    DifferentiableAt ℝ (fun _ : EuclideanSpace ℝ (Fin 1) => (5 : ℝ)) 0 ∧
    gradient (auxLoss (fun _ : EuclideanSpace ℝ (Fin 1) => (5 : ℝ))
        ((0 : EuclideanSpace ℝ (Fin 1)) - 0)) 0
      = gradient (fun _ : EuclideanSpace ℝ (Fin 1) => (5 : ℝ)) 0
        - ((0 : EuclideanSpace ℝ (Fin 1)) - 0) :=
  ⟨differentiableAt_const 5, aux_loss_gradient _ 0 0 0 (differentiableAt_const 5)⟩

/-- Claim C2, counterexample: with two batches and
`inner_epoch_fraction = 2/5`, so that `int(len(train_loader) * fraction) = 0`,
one outer epoch with one inner sub-epoch accumulates `1` candidate state, not
`num_inner_epochs * int(len(train_loader) * fraction) = 0` as claimed. -/
theorem candidate_count_ctrex :
    ¬ ((getOk defaultResultQ (train envW cfgFrac m0W m0W)).outerTraces.map
          (fun tr => tr.candidates.length)
        = [cfgFrac.numInnerEpochs * innerBatchCount envW cfgFrac]) := by
  decide

/-- Claim C2, amended: after every outer epoch of a completed run, the number
of candidate states is `num_inner_epochs` times the number of batches one
sub-epoch actually processes, namely `min(len(train_loader), max(1,
inner_batches))` (and `0` on an empty loader): the budget `inner_batches` is
clamped below by one because the truncation check runs only after a batch has
been processed, and above by the number of available batches. -/
theorem candidate_count_clamped [AddCommGroup G] (env : Env P G B) (cfg : Config)
    (m0 t0 : ModelState P G) (r : TrainResult P G) (h : train env cfg m0 t0 = .ok r) :
    ∀ tr ∈ r.outerTraces,
      tr.candidates.length = cfg.numInnerEpochs * subEpochLen env (innerBatchCount env cfg) := by
  obtain ⟨t1, wrecs, m2, t2, irecs, h1, h2, h3, h4, h5⟩ := train_ok_inv env cfg m0 t0 r h
  refine runOuterEpochs_traces env cfg _ ?_ cfg.numOuterEpochs 1 m0 t1 m2 t2
    r.outerTraces irecs h2
  intro epoch model target m1x t1x tr recs heq
  exact (runOuterEpoch_ok env cfg epoch model target m1x t1x tr recs heq).2.2.2.2.2.1

/-- Witness for the amended C2 on a run that exercises the
`int(len(train_loader) * fraction) = 0` clamp. -/
theorem candidate_count_clamped_witness :
    train envW cfgFrac2 m0W m0W = .ok (getOk defaultResultQ (train envW cfgFrac2 m0W m0W)) ∧
    ∀ tr ∈ (getOk defaultResultQ (train envW cfgFrac2 m0W m0W)).outerTraces,
      tr.candidates.length
        = cfgFrac2.numInnerEpochs * subEpochLen envW (innerBatchCount envW cfgFrac2) :=
  ⟨rfl, candidate_count_clamped envW cfgFrac2 m0W m0W _ rfl⟩

/-- Claim C3: in a completed run, with `choose_random_iterate=False` every
outer epoch's chosen next snapshot is the last candidate state; with
`choose_random_iterate=True` it is the candidate at the index drawn by the
random source (uniform below the length of the full cross-sub-epoch candidate
list); and the chosen state is loaded into the target model for the next
outer epoch (consecutive traces chain, and the final target model holds the
last chosen state). -/
theorem snapshot_selection [AddCommGroup G] (env : Env P G B) (cfg : Config)
    (m0 t0 : ModelState P G) (r : TrainResult P G) (h : train env cfg m0 t0 = .ok r) :
    (∀ tr ∈ r.outerTraces,
      (cfg.chooseRandomIterate = false → tr.candidates.getLast? = some tr.chosen) ∧
      (cfg.chooseRandomIterate = true →
        tr.candidates[env.randNat tr.epoch % tr.candidates.length]? = some tr.chosen)) ∧
    List.Chain' (fun a b => b.targetParamsStart = a.chosen) r.outerTraces ∧
    (∀ lt, r.outerTraces.getLast? = some lt → r.targetModel.params = lt.chosen) := by
  obtain ⟨t1, wrecs, m2, t2, irecs, h1, h2, h3, h4, h5⟩ := train_ok_inv env cfg m0 t0 r h
  obtain ⟨hc1, hc2, hc3, hc4⟩ :=
    runOuterEpochs_chain env cfg cfg.numOuterEpochs 1 m0 t1 m2 t2 r.outerTraces irecs h2
  refine ⟨?_, hc4, ?_⟩
  · refine runOuterEpochs_traces env cfg _ ?_ cfg.numOuterEpochs 1 m0 t1 m2 t2
      r.outerTraces irecs h2
    intro epoch model target m1x t1x tr recs heq
    obtain ⟨he1, -, -, -, -, -, -, he8, he9, -⟩ :=
      runOuterEpoch_ok env cfg epoch model target m1x t1x tr recs heq
    rw [he1]
    exact ⟨he8, he9⟩
  · intro lt hlt
    rw [h5]
    exact hc3 lt hlt

/-- Witness for C3 on a concrete run with random-iterate selection. -/
theorem snapshot_selection_witness :
    train envW cfgRand m0W m0W = .ok (getOk defaultResultQ (train envW cfgRand m0W m0W)) ∧
    ((∀ tr ∈ (getOk defaultResultQ (train envW cfgRand m0W m0W)).outerTraces,
      (cfgRand.chooseRandomIterate = false → tr.candidates.getLast? = some tr.chosen) ∧
      (cfgRand.chooseRandomIterate = true →
        tr.candidates[envW.randNat tr.epoch % tr.candidates.length]? = some tr.chosen)) ∧
    List.Chain' (fun a b => b.targetParamsStart = a.chosen)
      (getOk defaultResultQ (train envW cfgRand m0W m0W)).outerTraces ∧
    (∀ lt, (getOk defaultResultQ (train envW cfgRand m0W m0W)).outerTraces.getLast? = some lt →
      (getOk defaultResultQ (train envW cfgRand m0W m0W)).targetModel.params = lt.chosen)) :=
  ⟨rfl, snapshot_selection envW cfgRand m0W m0W _ rfl⟩

/-- Claim C4: in a completed run, at the start of every outer epoch the
working model's parameter values after the reset at line 67 equal the target
model's parameter values at the moment `mu` was computed. -/
theorem working_model_reset [AddCommGroup G] (env : Env P G B) (cfg : Config)
    (m0 t0 : ModelState P G) (r : TrainResult P G) (h : train env cfg m0 t0 = .ok r) :
    ∀ tr ∈ r.outerTraces, tr.workingAfterReset = tr.targetParamsStart := by
  obtain ⟨t1, wrecs, m2, t2, irecs, h1, h2, h3, h4, h5⟩ := train_ok_inv env cfg m0 t0 r h
  refine runOuterEpochs_traces env cfg _ ?_ cfg.numOuterEpochs 1 m0 t1 m2 t2
    r.outerTraces irecs h2
  intro epoch model target m1x t1x tr recs heq
  obtain ⟨-, -, hc3, hc4, -⟩ := runOuterEpoch_ok env cfg epoch model target m1x t1x tr recs heq
  rw [hc4, hc3]

/-- Witness for C4 on a concrete run. -/
theorem working_model_reset_witness :
    train envW cfgDet m0W m0W = .ok (getOk defaultResultQ (train envW cfgDet m0W m0W)) ∧
    ∀ tr ∈ (getOk defaultResultQ (train envW cfgDet m0W m0W)).outerTraces,
      tr.workingAfterReset = tr.targetParamsStart :=
  ⟨rfl, working_model_reset envW cfgDet m0W m0W _ rfl⟩

/-- Claim C5: in a completed run, within every outer epoch the target model's
parameter values are unchanged from the moment `mu` is computed until
next-snapshot selection (the inner loop touches only its gradient buffers),
and `mu` is the full gradient of exactly those frozen parameter values. -/
theorem target_model_frozen [AddCommGroup G] (env : Env P G B) (cfg : Config)
    (m0 t0 : ModelState P G) (r : TrainResult P G) (h : train env cfg m0 t0 = .ok r) :
    ∀ tr ∈ r.outerTraces,
      tr.targetParamsEnd = tr.targetParamsStart ∧
      tr.mu = env.fullGrad tr.targetParamsStart := by
  obtain ⟨t1, wrecs, m2, t2, irecs, h1, h2, h3, h4, h5⟩ := train_ok_inv env cfg m0 t0 r h
  refine runOuterEpochs_traces env cfg _ ?_ cfg.numOuterEpochs 1 m0 t1 m2 t2
    r.outerTraces irecs h2
  intro epoch model target m1x t1x tr recs heq
  obtain ⟨-, hc2, hc3, -, hc5, -⟩ :=
    runOuterEpoch_ok env cfg epoch model target m1x t1x tr recs heq
  rw [hc5, hc3, hc2]
  exact ⟨rfl, rfl⟩

/-- Witness for C5 on a concrete run. -/
theorem target_model_frozen_witness :
    train envW cfgDet m0W m0W = .ok (getOk defaultResultQ (train envW cfgDet m0W m0W)) ∧
    ∀ tr ∈ (getOk defaultResultQ (train envW cfgDet m0W m0W)).outerTraces,
      tr.targetParamsEnd = tr.targetParamsStart ∧
      tr.mu = envW.fullGrad tr.targetParamsStart :=
  ⟨rfl, target_model_frozen envW cfgDet m0W m0W _ rfl⟩

/-- Claim C6: the metrics sequence of a completed run is exactly one warmup
record per warmup epoch (indices `1..num_warmup_epochs`) followed by exactly
one inner record per (outer epoch, inner sub-epoch) pair in chronological
order; in particular with `num_outer_epochs = 0` only warmup records appear. -/
theorem metrics_shape [AddCommGroup G] (env : Env P G B) (cfg : Config)
    (m0 t0 : ModelState P G) (r : TrainResult P G) (h : train env cfg m0 t0 = .ok r) :
    r.metrics.map MetricRecord.tag
      = (List.range' 1 cfg.numWarmupEpochs).map Sum.inl
        ++ (List.range' 1 cfg.numOuterEpochs).flatMap
            (fun e => (List.range' 1 cfg.numInnerEpochs).map (fun j => Sum.inr (e, j))) := by
  obtain ⟨t1, wrecs, m2, t2, irecs, h1, h2, h3, -, -⟩ := train_ok_inv env cfg m0 t0 r h
  rw [h3, List.map_append, warmupPhase_ok_tags env cfg.numWarmupEpochs 1 t0 t1 wrecs h1,
    runOuterEpochs_tags env cfg cfg.numOuterEpochs 1 m0 t1 m2 t2 r.outerTraces irecs h2]

/-- Witness for C6 on a warmup-only run (`num_outer_epochs = 0`). -/
theorem metrics_shape_witness :
    train envW cfgWarm m0W m0W = .ok (getOk defaultResultQ (train envW cfgWarm m0W m0W)) ∧
    (getOk defaultResultQ (train envW cfgWarm m0W m0W)).metrics.map MetricRecord.tag
      = (List.range' 1 cfgWarm.numWarmupEpochs).map Sum.inl
        ++ (List.range' 1 cfgWarm.numOuterEpochs).flatMap
            (fun e => (List.range' 1 cfgWarm.numInnerEpochs).map (fun j => Sum.inr (e, j))) :=
  ⟨rfl, metrics_shape envW cfgWarm m0W m0W _ rfl⟩

/-- Claim C7 (the `utils` module is not in the source snapshot; the estimator
is modelled from spec §4.1): `calculate_full_gradient` is deterministic — the
embedding is a pure function of (model, dataset), reflecting the spec's
requirement that the pass has no lasting side effect on model state — and,
for a mean-reduction gradient engine, it equals the average of the
per-example gradients over the whole dataset, every example visited exactly
once (the dataset is exactly the concatenation of the batches). -/
theorem full_gradient_deterministic_average {Ex G : Type} [AddCommGroup G] [Module ℚ G]
    (exGrad : Ex → G) (batches : List (List Ex)) :
    calculate_full_gradient (meanBatchGrad exGrad) List.length batches
      = calculate_full_gradient (meanBatchGrad exGrad) List.length batches ∧
    calculate_full_gradient (meanBatchGrad exGrad) List.length batches
      = ((batches.flatten.length : ℚ))⁻¹ • (batches.flatten.map exGrad).sum := by
  refine ⟨rfl, ?_⟩
  simp only [calculate_full_gradient]
  have hmap : batches.map (fun b => (b.length : ℚ) • meanBatchGrad exGrad b)
      = batches.map (fun b => (b.map exGrad).sum) := by
    refine List.map_congr_left ?_
    intro b _
    match b with
    | [] => simp [meanBatchGrad]
    | x :: bs =>
      rw [meanBatchGrad, smul_smul,
        mul_inv_cancel₀ (Nat.cast_ne_zero.mpr (Nat.succ_ne_zero bs.length)), one_smul]
  have hsum : (batches.flatten.map exGrad).sum
      = (batches.map (fun b => (b.map exGrad).sum)).sum := by
    rw [List.map_flatten, List.sum_flatten, List.map_map]
    rfl
  have hlen : ((batches.map List.length).sum : ℚ) = (batches.flatten.length : ℚ) := by
    rw [List.length_flatten]
  rw [hmap, hsum, hlen]

/-- Claim C8: if `len(train_loader.dataset) = 0` and there is at least one
warmup epoch, the warmup average-loss division at line 46 raises
`ZeroDivisionError` and the whole run fails with it. -/
theorem empty_dataset_warmup_divzero [AddCommGroup G] (env : Env P G B) (cfg : Config)
    (m0 t0 : ModelState P G) (h0 : env.datasetSize = 0) (hw : 1 ≤ cfg.numWarmupEpochs) :
    train env cfg m0 t0 = .error .divisionByZero := by
  rw [train, warmupPhase_err_of_empty_dataset env h0 cfg.numWarmupEpochs 1 t0 hw]

/-- Witness for C8 at a concrete empty-dataset environment. -/
theorem empty_dataset_warmup_divzero_witness :
    envDS0.datasetSize = 0 ∧ 1 ≤ cfgWarm.numWarmupEpochs ∧
    train envDS0 cfgWarm m0W m0W = .error .divisionByZero :=
  ⟨rfl, by decide, empty_dataset_warmup_divzero envDS0 cfgWarm m0W m0W rfl (by decide)⟩

/-- Claim C9, counterexample: with a loader yielding no batches, one outer
epoch and one inner sub-epoch, the run fails with `ZeroDivisionError` at the
sub-epoch average-loss division (line 114), not with the `IndexError` of
SelectNextSnapshot as the claim states. -/
theorem no_batches_failure_ctrex :
    train envNoBatch cfgO1 m0W m0W = .error .divisionByZero ∧
    train envNoBatch cfgO1 m0W m0W ≠ .error .indexError := by
  refine ⟨rfl, fun h => ?_⟩
  rw [show train envNoBatch cfgO1 m0W m0W = Except.error Err.divisionByZero from rfl] at h
  exact absurd ((Except.error.injEq _ _).mp h) (by decide)

/-- Claim C9, amended: assuming the warmup phase completes, a run with
`num_outer_epochs ≥ 1` and `num_inner_epochs = 0` fails at SelectNextSnapshot
with `IndexError` (empty candidate sequence); if instead the loader yields no
batches while `num_inner_epochs ≥ 1`, the run fails earlier, at the
sub-epoch average-loss division, with `ZeroDivisionError`.  No configuration
validation rejects either combination before training starts. -/
theorem empty_inner_failure [AddCommGroup G] (env : Env P G B) (cfg : Config)
    (m0 t0 : ModelState P G)
    (hw : cfg.numWarmupEpochs = 0 ∨ env.datasetSize ≠ 0)
    (ho : 1 ≤ cfg.numOuterEpochs) :
    (cfg.numInnerEpochs = 0 → train env cfg m0 t0 = .error .indexError) ∧
    (env.batches = [] → 1 ≤ cfg.numInnerEpochs →
      train env cfg m0 t0 = .error .divisionByZero) := by
  have hwp : ∃ out, warmupPhase env cfg.numWarmupEpochs 1 t0 = .ok out := by
    rcases hw with h | h
    · rw [h]; exact ⟨(t0, []), rfl⟩
    · exact warmupPhase_ok_of_pos env h cfg.numWarmupEpochs 1 t0
  obtain ⟨⟨t1, wrecs⟩, hwp⟩ := hwp
  obtain ⟨n, hn⟩ : ∃ n, cfg.numOuterEpochs = n + 1 := ⟨cfg.numOuterEpochs - 1, by omega⟩
  constructor
  · intro hI
    simp only [train, hwp, hn, runOuterEpochs,
      runOuterEpoch_err_of_no_inner env cfg 1 m0 t1 hI]
  · intro hb hI
    simp only [train, hwp, hn, runOuterEpochs,
      runOuterEpoch_err_of_no_batches env cfg 1 m0 t1 hb hI]

/-- Witness for the amended C9: both failure modes at concrete inputs. -/
theorem empty_inner_failure_witness :
    train envW cfgI0 m0W m0W = .error .indexError ∧
    train envNoBatch cfgO1 m0W m0W = .error .divisionByZero :=
  ⟨(empty_inner_failure envW cfgI0 m0W m0W (Or.inl rfl) (by decide)).1 rfl,
   (empty_inner_failure envNoBatch cfgO1 m0W m0W (Or.inl rfl) (by decide)).2 rfl (by decide)⟩

/-- Claim C10: on a non-empty batch sequence every inner sub-epoch processes
at least one batch and appends at least one candidate state, whatever the
budget `inner_batches` is (including `int(len(train_loader) * fraction) = 0`),
because the truncation check at lines 111–113 runs only after the batch has
been processed and its state snapshot appended. -/
theorem sub_epoch_appends_at_least_one [AddCommGroup G] (env : Env P G B) (mu : G)
    (ib : ℕ) (s : InnerAcc P G) (hne : env.batches ≠ []) :
    s.cands.length + 1 ≤ (subEpochBatches env mu ib env.batches 0 s).cands.length := by
  rw [subEpochBatches_cands_length env mu ib env.batches 0 s]
  have h1 : 0 < env.batches.length := List.length_pos.mpr hne
  omega

/-- Witness for C10 at the budget `inner_batches = 0`. -/
theorem sub_epoch_appends_at_least_one_witness :
    envW.batches ≠ [] ∧
    sW.cands.length + 1 ≤ (subEpochBatches envW (0 : ℚ) 0 envW.batches 0 sW).cands.length :=
  ⟨by decide, sub_epoch_appends_at_least_one envW 0 0 sW (by decide)⟩

end SVRG
